import Mathlib

/-!
Verification of the browser-data extraction pipeline in `src/index.js`.

The source is a Node.js module exporting six extraction operations over
Chromium SQLite stores (`getLoginData`, `getLoginDataEach`, `getCookies`,
`getCookiesEach`, `getUrlHistory`, `getDownloadHistory`) plus a private
path resolver `getBrowserFilePath`.

Shallow embedding conventions:
* JavaScript values are `Val` (undefined, null, booleans, integers,
  strings, opaque byte blobs).  A SQLite result row — a JS object — is a
  `Row`: an ordered association list of field name to value; property
  access on a missing key yields `Val.undef`, exactly as in JS.
* The sqlite3 driver is external; it is modelled by an environment `Env`
  carrying the resolved `LOCALAPPDATA` directory and a filesystem map
  from path to an openable database (`none` = the open fails, which also
  covers a non-string path handed to the driver).  A database maps a
  table name to its `SELECT *` result rows (`none` = the query fails).
* Each operation is a pure function producing an `OpOutput`: the ordered
  list of observable events (console.error calls, query execution,
  console.log calls, connection close) together with the operation's JS
  return value.  Control flow, field names, column names, truthiness
  tests and the presence or absence of `db.close()` calls are transcribed
  branch by branch from the source.
-/

/-- A JavaScript value as it appears in this pipeline: `undefined`, `null`,
booleans, SQLite integers, strings, and opaque byte blobs (encrypted
password / cookie values). -/
inductive Val where
  | undef
  | null
  | bool (b : Bool)
  | int (n : Int)
  | str (s : String)
  | blob (bytes : List Nat)
deriving DecidableEq, Repr

/-- A JS object / SQLite row: an ordered association list from field name
to value. -/
def Row : Type := List (String × Val)

instance : DecidableEq Row := inferInstanceAs (DecidableEq (List (String × Val)))

instance : Repr Row := inferInstanceAs (Repr (List (String × Val)))

/-- JS property access `row.k`: the first binding of `k`, or `undefined`
when the object has no such field. -/
def rowGet (row : Row) (k : String) : Val :=
  match row.find? (fun p => p.1 = k) with
  | some p => p.2
  | none => Val.undef

/-- JS truthiness, as used by `if (limited)`, `if (!loginDataFilePath)` and
`Boolean(x)`: `undefined`, `null`, `false`, `0` and `""` are falsy;
everything else (including any object/blob) is truthy. -/
def truthy : Val → Bool
  | Val.undef => false
  | Val.null => false
  | Val.bool b => b
  | Val.int n => decide (n ≠ 0)
  | Val.str s => decide (s ≠ "")
  | Val.blob _ => true

/-- The limited-view login projection (src/index.js lines 39-43):
`{originUrl: row.origin_url, username: row.username_value,
password: row.password_value}`. -/
def projectLogin (row : Row) : Row :=
  [("originUrl", rowGet row "origin_url"),
   ("username", rowGet row "username_value"),
   ("password", rowGet row "password_value")]

/-- The limited-view cookie projection (src/index.js lines 129-141),
including the `Boolean(...)` coercions of the five flag columns and the
`value: row.encrypted_value` binding. -/
def projectCookie (row : Row) : Row :=
  [("hostKey", rowGet row "host_key"),
   ("name", rowGet row "name"),
   ("value", rowGet row "encrypted_value"),
   ("path", rowGet row "path"),
   ("expiresUtc", rowGet row "expires_utc"),
   ("secure", Val.bool (truthy (rowGet row "secure"))),
   ("httpOnly", Val.bool (truthy (rowGet row "httponly"))),
   ("lastAccessUtc", rowGet row "last_access_utc"),
   ("expired", Val.bool (truthy (rowGet row "has_expires"))),
   ("persistent", Val.bool (truthy (rowGet row "persistent"))),
   ("priority", Val.bool (truthy (rowGet row "priority")))]

/-- The limited-view URL-history projection (src/index.js lines 235-241). -/
def projectUrl (row : Row) : Row :=
  [("id", rowGet row "id"),
   ("url", rowGet row "url"),
   ("title", rowGet row "title"),
   ("visits", rowGet row "visit_count"),
   ("lastVisit", rowGet row "last_visit_time")]

/-- The limited-view download-history projection (src/index.js
lines 284-294). -/
def projectDownload (row : Row) : Row :=
  [("id", rowGet row "id"),
   ("guid", rowGet row "guid"),
   ("currentPath", rowGet row "current_path"),
   ("targetPath", rowGet row "target_path"),
   ("totalBytes", rowGet row "total_bytes"),
   ("referrer", rowGet row "referrer"),
   ("siteUrl", rowGet row "site_url"),
   ("tabUrl", rowGet row "tab_url"),
   ("mimeType", rowGet row "mime_type")]

/-- Collapse every run of consecutive backslashes to a single backslash:
the part of Node's win32 `path.normalize` that `path.join` exercises on
the arguments appearing in `getBrowserFilePath`. -/
def collapseSep : List Char → List Char
  | [] => []
  | [c] => [c]
  | c1 :: c2 :: rest =>
      if c1 = '\\' ∧ c2 = '\\' then collapseSep (c2 :: rest)
      else c1 :: collapseSep (c2 :: rest)

/-- Concatenate path components with a single backslash between them,
mirroring the joining loop of Node's win32 `path.join`. -/
def joinParts : List String → String
  | [] => ""
  | [p] => p
  | p :: rest => p ++ "\\" ++ joinParts rest

/-- Node's win32 `path.join`: drop empty components, join the rest with
backslashes, then normalize repeated separators; all-empty input yields
`"."`. -/
def pathJoin (parts : List String) : String :=
  let kept := parts.filter (fun p => p ≠ "")
  if kept = [] then "." else String.mk (collapseSep (joinParts kept).data)

/-- `getBrowserFilePath` (src/index.js lines 312-326): maps a browser
identifier and file name to the vendor path under `LOCALAPPDATA`;
any identifier outside {chrome, opera, yandex} falls through to a bare
`return`, i.e. `undefined`, modelled as `none`. -/
def getBrowserFilePath (localAppData : String) (browser fileName : String) :
    Option String :=
  if browser = "chrome" then
    some (pathJoin [localAppData, "\\Google\\Chrome\\User Data\\Default\\", fileName])
  else if browser = "opera" then
    some (pathJoin [localAppData, "\\Opera Software\\Opera Stable\\", fileName])
  else if browser = "yandex" then
    some (pathJoin [localAppData, "\\Yandex\\YandexBrowser\\User Data\\Default\\", fileName])
  else
    none

/-- A database as the driver presents it to this module: the `SELECT *`
result rows of each table, or `none` when the query against that table
fails (missing table / schema drift). -/
def Db : Type := String → Option (List Row)

/-- The external environment of one run: the resolved `LOCALAPPDATA`
directory and the filesystem, mapping a path to an openable database or
`none` when the read-only open fails. -/
structure Env where
  localAppData : String
  fs : String → Option Db

/-- Opening a store with `new sqlite3.Database(path, OPEN_READONLY, cb)`:
a non-string path (the `undefined` produced for an unsupported browser)
fails inside the driver just like a missing file; a string path is looked
up in the filesystem. -/
def openDb (fs : String → Option Db) : Val → Option Db
  | Val.str p => fs p
  | _ => none

/-- One caller-observable event of an operation, in order: a
`console.error` of the open error, a `console.error` of the query error,
execution of a SQL query, a `console.log` of an array of records, or the
completion of `db.close()`. -/
inductive Event where
  | openErr
  | queryErr
  | query (sql : String)
  | log (records : List Row)
  | close
deriving DecidableEq, Repr

/-- What one call of an exported operation produces: the ordered trace of
observable events and the function's JS return value. -/
structure OpOutput where
  trace : List Event
  ret : Val
deriving DecidableEq, Repr

/-- The path each operation actually opens: the caller's override when
truthy, else the resolver's result (`undefined` when the resolver yields
none), mirroring `if (!filePath) filePath = getBrowserFilePath(...)`. -/
def resolvePathVal (env : Env) (browser fileName : String) (override : Val) : Val :=
  if truthy override then override
  else
    match getBrowserFilePath env.localAppData browser fileName with
    | some s => Val.str s
    | none => Val.undef

/-- The row-accumulation loop shared by the bulk operations: iterate over
the rows in order, pushing the projected record when `limited` is truthy
and the raw row otherwise. -/
def buildRows (limited : Val) (project : Row → Row) (rows : List Row) : List Row :=
  rows.foldl (fun acc row => acc ++ [if truthy limited then project row else row]) []

/-- The streaming `db.each` callback: each delivered row is pushed onto the
accumulator and the whole accumulated array is `console.log`ged, producing
one `log` event per row. -/
def eachEvents (limited : Val) (project : Row → Row) (acc : List Row) :
    List Row → List Event
  | [] => []
  | row :: rest =>
      let acc2 := acc ++ [if truthy limited then project row else row]
      Event.log acc2 :: eachEvents limited project acc2 rest

/-- `exports.getLoginData` (src/index.js lines 16-54): resolve the path,
open read-only (open error → `console.error`, return), `db.all` on
`logins` (query error → `console.error`), build the array with the
optional login projection, `console.log` it; `db.close()` runs on every
path on which the open succeeded.  The function has no `return value`
statement, so it returns `undefined`. -/
def getLoginData (env : Env) (browser : String) (limited : Val)
    (loginDataFilePath : Val) : OpOutput :=
  let p := resolvePathVal env browser "Login Data" loginDataFilePath
  match openDb env.fs p with
  | none => ⟨[Event.openErr], Val.undef⟩
  | some db =>
    match db "logins" with
    | none =>
        ⟨[Event.query "SELECT * FROM logins", Event.queryErr, Event.close], Val.undef⟩
    | some rows =>
        ⟨[Event.query "SELECT * FROM logins",
          Event.log (buildRows limited projectLogin rows), Event.close], Val.undef⟩

/-- `exports.getLoginDataEach` (src/index.js lines 63-97): identical to
`getLoginData` except rows are delivered one at a time by `db.each`, the
growing array being logged after each row. -/
def getLoginDataEach (env : Env) (browser : String) (limited : Val)
    (loginDataFilePath : Val) : OpOutput :=
  let p := resolvePathVal env browser "Login Data" loginDataFilePath
  match openDb env.fs p with
  | none => ⟨[Event.openErr], Val.undef⟩
  | some db =>
    match db "logins" with
    | none =>
        ⟨[Event.query "SELECT * FROM logins", Event.queryErr, Event.close], Val.undef⟩
    | some rows =>
        ⟨Event.query "SELECT * FROM logins" ::
           (eachEvents limited projectLogin [] rows ++ [Event.close]), Val.undef⟩

/-- `exports.getCookies` (src/index.js lines 106-152): the bulk cookie
extraction against table `cookies` with the cookie projection. -/
def getCookies (env : Env) (browser : String) (limited : Val)
    (cookiesFilePath : Val) : OpOutput :=
  let p := resolvePathVal env browser "Cookies" cookiesFilePath
  match openDb env.fs p with
  | none => ⟨[Event.openErr], Val.undef⟩
  | some db =>
    match db "cookies" with
    | none =>
        ⟨[Event.query "SELECT * FROM cookies", Event.queryErr, Event.close], Val.undef⟩
    | some rows =>
        ⟨[Event.query "SELECT * FROM cookies",
          Event.log (buildRows limited projectCookie rows), Event.close], Val.undef⟩

/-- `exports.getCookiesEach` (src/index.js lines 161-203): the streaming
cookie extraction. -/
def getCookiesEach (env : Env) (browser : String) (limited : Val)
    (cookiesFilePath : Val) : OpOutput :=
  let p := resolvePathVal env browser "Cookies" cookiesFilePath
  match openDb env.fs p with
  | none => ⟨[Event.openErr], Val.undef⟩
  | some db =>
    match db "cookies" with
    | none =>
        ⟨[Event.query "SELECT * FROM cookies", Event.queryErr, Event.close], Val.undef⟩
    | some rows =>
        ⟨Event.query "SELECT * FROM cookies" ::
           (eachEvents limited projectCookie [] rows ++ [Event.close]), Val.undef⟩

/-- `exports.getUrlHistory` (src/index.js lines 212-252): the bulk URL
history extraction against table `urls`. -/
def getUrlHistory (env : Env) (browser : String) (limited : Val)
    (historyFilePath : Val) : OpOutput :=
  let p := resolvePathVal env browser "History" historyFilePath
  match openDb env.fs p with
  | none => ⟨[Event.openErr], Val.undef⟩
  | some db =>
    match db "urls" with
    | none =>
        ⟨[Event.query "SELECT * FROM urls", Event.queryErr, Event.close], Val.undef⟩
    | some rows =>
        ⟨[Event.query "SELECT * FROM urls",
          Event.log (buildRows limited projectUrl rows), Event.close], Val.undef⟩

/-- `exports.getDownloadHistory` (src/index.js lines 261-303): the bulk
download history extraction against table `downloads`.  Unlike the five
operations above, the source contains no `db.close()` call in this
function, so no `close` event ever occurs on any of its paths. -/
def getDownloadHistory (env : Env) (browser : String) (limited : Val)
    (historyFilePath : Val) : OpOutput :=
  let p := resolvePathVal env browser "History" historyFilePath
  match openDb env.fs p with
  | none => ⟨[Event.openErr], Val.undef⟩
  | some db =>
    match db "downloads" with
    | none =>
        ⟨[Event.query "SELECT * FROM downloads", Event.queryErr], Val.undef⟩
    | some rows =>
        ⟨[Event.query "SELECT * FROM downloads",
          Event.log (buildRows limited projectDownload rows)], Val.undef⟩

/-- A concrete raw `logins` row (the spec's example row plus one extra
native column), used as input in witnesses and counterexamples. -/
def sampleLoginRow : Row :=
  [("origin_url", Val.str "https://example.com"),
   ("username_value", Val.str "alice"),
   ("password_value", Val.blob [1, 2, 3]),
   ("signon_realm", Val.str "https://example.com/")]

/-- A concrete raw `cookies` row with both a plaintext `value` and an
`encrypted_value` column and mixed flag values. -/
def sampleCookieRow : Row :=
  [("host_key", Val.str ".example.com"),
   ("name", Val.str "sid"),
   ("value", Val.str "plaintext"),
   ("encrypted_value", Val.blob [7, 7]),
   ("path", Val.str "/"),
   ("expires_utc", Val.int 13281000000000),
   ("secure", Val.int 1),
   ("httponly", Val.int 0),
   ("last_access_utc", Val.int 13281000000001),
   ("has_expires", Val.int 2),
   ("persistent", Val.int 0),
   ("priority", Val.int 1)]

/-- A concrete database whose `logins` table holds exactly
`sampleLoginRow`; every other query fails. -/
def dbLogins : Db := fun t => if t = "logins" then some [sampleLoginRow] else none

/-- A concrete database whose `downloads` table holds one row; every
other query fails. -/
def dbDownloads : Db :=
  fun t => if t = "downloads" then some [[("id", Val.int 1)]] else none

/-- A concrete environment in which no file can be opened. -/
def envEmpty : Env :=
  { localAppData := "C:\\Users\\u\\AppData\\Local", fs := fun _ => none }

/-- A concrete environment in which every path opens `dbLogins`. -/
def envLogins : Env :=
  { localAppData := "C:\\Users\\u\\AppData\\Local", fs := fun _ => some dbLogins }

/-- A concrete environment in which every path opens `dbDownloads`. -/
def envDownloads : Env :=
  { localAppData := "C:\\Users\\u\\AppData\\Local", fs := fun _ => some dbDownloads }

/-- The last array `console.log`ged in a trace, if any. -/
def lastLog : List Event → Option (List Row)
  | [] => none
  | Event.log records :: rest =>
      match lastLog rest with
      | some l => some l
      | none => some records
  | _ :: rest => lastLog rest

/-- The records an operation hands to its output channel: the contents of
the final logged array (in streaming mode every earlier log is a prefix
of it), or no records when nothing was logged. -/
def emitted (o : OpOutput) : List Row :=
  (lastLog o.trace).getD []

/-! ## Helper lemmas -/

theorem foldl_push_eq_append_map (f : Row → Row) :
    ∀ (rows acc : List Row),
      rows.foldl (fun a r => a ++ [f r]) acc = acc ++ rows.map f
  | [], acc => by simp
  | r :: rest, acc => by
      simp only [List.foldl, List.map]
      rw [foldl_push_eq_append_map f rest (acc ++ [f r])]
      simp

theorem buildRows_eq_map (limited : Val) (project : Row → Row) (rows : List Row) :
    buildRows limited project rows =
      rows.map (fun r => if truthy limited then project r else r) := by
  unfold buildRows
  rw [foldl_push_eq_append_map]
  simp

theorem lastLog_append_close (l : List Event) :
    lastLog (l ++ [Event.close]) = lastLog l := by
  induction l with
  | nil => rfl
  | cons e rest ih => cases e <;> simp [lastLog, ih]

theorem eachEvents_lastLog (limited : Val) (project : Row → Row) :
    ∀ (rows acc : List Row),
      lastLog (eachEvents limited project acc rows) =
        if rows = [] then none
        else some (acc ++ rows.map (fun r => if truthy limited then project r else r))
  | [], _ => rfl
  | r :: rest, acc => by
      simp only [eachEvents, lastLog]
      rw [eachEvents_lastLog limited project rest]
      cases rest with
      | nil => simp
      | cons r2 rest2 => simp

/-! ## Claims -/

/-- C2 counterexample: the limited-view projection is not idempotent.
Projecting the already-projected record of the concrete login row
`sampleLoginRow` again does not yield that record back: the second
application reads the native column names (`origin_url`, ...) which the
projected record no longer carries. -/
theorem projectLogin_not_idempotent_cex :
    ¬ (projectLogin (projectLogin sampleLoginRow) = projectLogin sampleLoginRow) := by
  decide

/-- C2 (amended): projecting twice is never the identity on the projected
record's data; because the projection reads the native column names while
emitting camel-case names, applying the login projection to any
already-projected record yields the record whose three fields are all
`undefined`. -/
theorem projectLogin_twice_all_undef (row : Row) :
    projectLogin (projectLogin row) =
      [("originUrl", Val.undef), ("username", Val.undef), ("password", Val.undef)] := by
  rfl

/-- C10: every exported extraction operation returns `undefined` to its
caller for every environment, browser identifier, limited flag, and
override path; the extracted records appear only in the console trace,
never in the return value. -/
theorem operations_return_undefined (env : Env) (browser : String)
    (limited override : Val) :
    (getLoginData env browser limited override).ret = Val.undef ∧
    (getLoginDataEach env browser limited override).ret = Val.undef ∧
    (getCookies env browser limited override).ret = Val.undef ∧
    (getCookiesEach env browser limited override).ret = Val.undef ∧
    (getUrlHistory env browser limited override).ret = Val.undef ∧
    (getDownloadHistory env browser limited override).ret = Val.undef := by
  unfold getLoginData getLoginDataEach getCookies getCookiesEach
    getUrlHistory getDownloadHistory
  refine ⟨?_, ?_, ?_, ?_, ?_, ?_⟩ <;>
    · dsimp only
      split
      · rfl
      · split <;> rfl

/-- C3: on every environment, browser, limited flag, and override path,
bulk mode (`db.all`) and streaming mode (`db.each`) emit the same multiset
of output records — for logins and for cookies alike.  (The lists are in
fact equal element for element; only the delivery differs.) -/
theorem bulk_each_same_records (env : Env) (browser : String)
    (limited override : Val) :
    ((emitted (getLoginData env browser limited override) : Multiset Row) =
       (emitted (getLoginDataEach env browser limited override) : Multiset Row)) ∧
    ((emitted (getCookies env browser limited override) : Multiset Row) =
       (emitted (getCookiesEach env browser limited override) : Multiset Row)) := by
  have hlog : emitted (getLoginData env browser limited override) =
      emitted (getLoginDataEach env browser limited override) := by
    unfold getLoginData getLoginDataEach
    dsimp only
    cases openDb env.fs (resolvePathVal env browser "Login Data" override) with
    | none => rfl
    | some db =>
      dsimp only
      cases db "logins" with
      | none => rfl
      | some rows =>
        cases rows with
        | nil => rfl
        | cons r rs =>
          simp [emitted, lastLog, lastLog_append_close, eachEvents_lastLog,
            buildRows_eq_map]
          cases rs <;> simp
  have hck : emitted (getCookies env browser limited override) =
      emitted (getCookiesEach env browser limited override) := by
    unfold getCookies getCookiesEach
    dsimp only
    cases openDb env.fs (resolvePathVal env browser "Cookies" override) with
    | none => rfl
    | some db =>
      dsimp only
      cases db "cookies" with
      | none => rfl
      | some rows =>
        cases rows with
        | nil => rfl
        | cons r rs =>
          simp [emitted, lastLog, lastLog_append_close, eachEvents_lastLog,
            buildRows_eq_map]
          cases rs <;> simp
  exact ⟨congrArg (fun l : List Row => (l : Multiset Row)) hlog,
         congrArg (fun l : List Row => (l : Multiset Row)) hck⟩

/-- C4: for every path that cannot be opened (the filesystem yields no
database for it), every one of the six extraction operations produces
exactly one `console.error` open-failure report and nothing else: no
query is executed, no rows are logged, nothing partial is produced. -/
theorem open_failure_reports_and_stops (env : Env) (browser : String)
    (limited : Val) (p : String) (hp : p ≠ "") (hfs : env.fs p = none) :
    getLoginData env browser limited (Val.str p) = ⟨[Event.openErr], Val.undef⟩ ∧
    getLoginDataEach env browser limited (Val.str p) = ⟨[Event.openErr], Val.undef⟩ ∧
    getCookies env browser limited (Val.str p) = ⟨[Event.openErr], Val.undef⟩ ∧
    getCookiesEach env browser limited (Val.str p) = ⟨[Event.openErr], Val.undef⟩ ∧
    getUrlHistory env browser limited (Val.str p) = ⟨[Event.openErr], Val.undef⟩ ∧
    getDownloadHistory env browser limited (Val.str p) = ⟨[Event.openErr], Val.undef⟩ := by
  unfold getLoginData getLoginDataEach getCookies getCookiesEach
    getUrlHistory getDownloadHistory
  simp [resolvePathVal, truthy, hp, openDb, hfs]

/-- C4 witness: opening the nonexistent path `"Z:\nope"` in the concrete
environment `envEmpty` makes every operation stop with a single
open-failure report. -/
theorem open_failure_reports_and_stops_witness :
    getLoginData envEmpty "chrome" Val.undef (Val.str "Z:\\nope") =
        ⟨[Event.openErr], Val.undef⟩ ∧
    getLoginDataEach envEmpty "chrome" Val.undef (Val.str "Z:\\nope") =
        ⟨[Event.openErr], Val.undef⟩ ∧
    getCookies envEmpty "chrome" Val.undef (Val.str "Z:\\nope") =
        ⟨[Event.openErr], Val.undef⟩ ∧
    getCookiesEach envEmpty "chrome" Val.undef (Val.str "Z:\\nope") =
        ⟨[Event.openErr], Val.undef⟩ ∧
    getUrlHistory envEmpty "chrome" Val.undef (Val.str "Z:\\nope") =
        ⟨[Event.openErr], Val.undef⟩ ∧
    getDownloadHistory envEmpty "chrome" Val.undef (Val.str "Z:\\nope") =
        ⟨[Event.openErr], Val.undef⟩ :=
  open_failure_reports_and_stops envEmpty "chrome" Val.undef "Z:\\nope"
    (by decide) rfl

/-- C5 counterexample: for the unsupported identifier `"firefox"` with no
override path, the caller receives no explicit "unsupported browser"
signal: the call produces exactly the same observable output as a
supported browser (`"chrome"`) whose store file simply cannot be opened —
a single late open-failure report from inside the store accessor. -/
theorem unsupported_browser_no_signal_cex :
    getLoginData envEmpty "firefox" Val.undef Val.undef =
      getLoginData envEmpty "chrome" Val.undef Val.undef ∧
    (getLoginData envEmpty "firefox" Val.undef Val.undef).trace =
      [Event.openErr] := by
  decide

/-- C5 (amended): for every browser identifier outside
{chrome, opera, yandex} with no explicit override path, every extraction
operation passes the resolver's absent result straight into the store
opener and the caller observes only a generic open-failure report
(`console.error` of the driver's error) — a late failure in the accessor,
indistinguishable from a missing store file, with no dedicated
"unsupported browser" signal. -/
theorem unsupported_browser_late_open_failure (env : Env) (browser : String)
    (limited : Val) (h1 : browser ≠ "chrome") (h2 : browser ≠ "opera")
    (h3 : browser ≠ "yandex") :
    getLoginData env browser limited Val.undef = ⟨[Event.openErr], Val.undef⟩ ∧
    getLoginDataEach env browser limited Val.undef = ⟨[Event.openErr], Val.undef⟩ ∧
    getCookies env browser limited Val.undef = ⟨[Event.openErr], Val.undef⟩ ∧
    getCookiesEach env browser limited Val.undef = ⟨[Event.openErr], Val.undef⟩ ∧
    getUrlHistory env browser limited Val.undef = ⟨[Event.openErr], Val.undef⟩ ∧
    getDownloadHistory env browser limited Val.undef = ⟨[Event.openErr], Val.undef⟩ := by
  unfold getLoginData getLoginDataEach getCookies getCookiesEach
    getUrlHistory getDownloadHistory
  simp [resolvePathVal, truthy, getBrowserFilePath, h1, h2, h3, openDb]

/-- C5 witness: the amended statement instantiated at `"firefox"` in the
concrete environment `envLogins` (where every file would open fine, so
the failure really comes from the absent path, not the filesystem). -/
theorem unsupported_browser_late_open_failure_witness :
    getLoginData envLogins "firefox" Val.undef Val.undef =
        ⟨[Event.openErr], Val.undef⟩ ∧
    getLoginDataEach envLogins "firefox" Val.undef Val.undef =
        ⟨[Event.openErr], Val.undef⟩ ∧
    getCookies envLogins "firefox" Val.undef Val.undef =
        ⟨[Event.openErr], Val.undef⟩ ∧
    getCookiesEach envLogins "firefox" Val.undef Val.undef =
        ⟨[Event.openErr], Val.undef⟩ ∧
    getUrlHistory envLogins "firefox" Val.undef Val.undef =
        ⟨[Event.openErr], Val.undef⟩ ∧
    getDownloadHistory envLogins "firefox" Val.undef Val.undef =
        ⟨[Event.openErr], Val.undef⟩ :=
  unsupported_browser_late_open_failure envLogins "firefox" Val.undef
    (by decide) (by decide) (by decide)

/-- C1: contrary to the claim that every operation closes its connection
on every exit path, `getDownloadHistory` contains no `db.close()` call at
all: in the concrete environment `envDownloads` the open succeeds (a
query is executed and rows are logged) yet no `close` event ever occurs —
while the sibling `getUrlHistory`, run in the very same environment,
closes its connection even on its failing query.  The five other
operations all close; the missing close in `getDownloadHistory` is a slip
in the code. -/
theorem getDownloadHistory_never_closes :
    (openDb envDownloads.fs
        (resolvePathVal envDownloads "chrome" "History" Val.undef)).isSome = true ∧
    Event.close ∉ (getDownloadHistory envDownloads "chrome" Val.undef Val.undef).trace ∧
    (getDownloadHistory envDownloads "chrome" Val.undef Val.undef).trace =
      [Event.query "SELECT * FROM downloads", Event.log [[("id", Val.int 1)]]] ∧
    Event.close ∈ (getUrlHistory envDownloads "chrome" Val.undef Val.undef).trace := by
  decide

/-- C6: when the store opens and the `logins` query succeeds, the login
fetch emits, for a truthy limited flag, exactly the projections of the
rows, and otherwise the rows verbatim; and for every row the projected
record carries exactly the fields originUrl, username, password, drawn
from the native origin_url, username_value, password_value columns. -/
theorem login_limited_view (env : Env) (browser : String) (limited : Val)
    (p : String) (db : Db) (rows : List Row) (hp : p ≠ "")
    (hfs : env.fs p = some db) (hq : db "logins" = some rows) :
    (emitted (getLoginData env browser limited (Val.str p)) =
       if truthy limited then rows.map projectLogin else rows) ∧
    (∀ row : Row, (projectLogin row).map Prod.fst =
       ["originUrl", "username", "password"]) ∧
    (∀ row : Row,
       rowGet (projectLogin row) "originUrl" = rowGet row "origin_url" ∧
       rowGet (projectLogin row) "username" = rowGet row "username_value" ∧
       rowGet (projectLogin row) "password" = rowGet row "password_value") := by
  refine ⟨?_, fun row => rfl, fun row => ⟨rfl, rfl, rfl⟩⟩
  unfold getLoginData
  dsimp only
  have hres : resolvePathVal env browser "Login Data" (Val.str p) = Val.str p := by
    simp [resolvePathVal, truthy, hp]
  rw [hres, show openDb env.fs (Val.str p) = env.fs p from rfl, hfs]
  dsimp only
  rw [hq]
  dsimp only
  simp only [emitted, lastLog, buildRows_eq_map]
  cases h : truthy limited <;> simp [h]

/-- C6 witness: the login fetch on the concrete one-row store `envLogins`,
in limited mode, over the path `"Login Data"`. -/
theorem login_limited_view_witness :
    (emitted (getLoginData envLogins "chrome" (Val.bool true) (Val.str "Login Data")) =
       if truthy (Val.bool true) then [sampleLoginRow].map projectLogin
       else [sampleLoginRow]) ∧
    (∀ row : Row, (projectLogin row).map Prod.fst =
       ["originUrl", "username", "password"]) ∧
    (∀ row : Row,
       rowGet (projectLogin row) "originUrl" = rowGet row "origin_url" ∧
       rowGet (projectLogin row) "username" = rowGet row "username_value" ∧
       rowGet (projectLogin row) "password" = rowGet row "password_value") :=
  login_limited_view envLogins "chrome" (Val.bool true) "Login Data" dbLogins
    [sampleLoginRow] (by decide) rfl rfl

/-- C7: the cookie projection coerces each of the five flag columns with
JS `Boolean(...)`: an integer-valued flag column projects to `true`
exactly when the stored integer is non-zero. -/
theorem cookie_flags_coerced (row : Row) (s h e pe pr : Int)
    (hs : rowGet row "secure" = Val.int s)
    (hh : rowGet row "httponly" = Val.int h)
    (he : rowGet row "has_expires" = Val.int e)
    (hpe : rowGet row "persistent" = Val.int pe)
    (hpr : rowGet row "priority" = Val.int pr) :
    rowGet (projectCookie row) "secure" = Val.bool (decide (s ≠ 0)) ∧
    rowGet (projectCookie row) "httpOnly" = Val.bool (decide (h ≠ 0)) ∧
    rowGet (projectCookie row) "expired" = Val.bool (decide (e ≠ 0)) ∧
    rowGet (projectCookie row) "persistent" = Val.bool (decide (pe ≠ 0)) ∧
    rowGet (projectCookie row) "priority" = Val.bool (decide (pr ≠ 0)) := by
  refine ⟨?_, ?_, ?_, ?_, ?_⟩
  · show Val.bool (truthy (rowGet row "secure")) = _
    rw [hs]
    simp [truthy]
  · show Val.bool (truthy (rowGet row "httponly")) = _
    rw [hh]
    simp [truthy]
  · show Val.bool (truthy (rowGet row "has_expires")) = _
    rw [he]
    simp [truthy]
  · show Val.bool (truthy (rowGet row "persistent")) = _
    rw [hpe]
    simp [truthy]
  · show Val.bool (truthy (rowGet row "priority")) = _
    rw [hpr]
    simp [truthy]

/-- C7 witness: on the concrete row `sampleCookieRow` (secure = 1,
httponly = 0, has_expires = 2, persistent = 0, priority = 1) the
projected flags are true, false, true, false, true. -/
theorem cookie_flags_coerced_witness :
    rowGet (projectCookie sampleCookieRow) "secure" =
        Val.bool (decide ((1 : Int) ≠ 0)) ∧
    rowGet (projectCookie sampleCookieRow) "httpOnly" =
        Val.bool (decide ((0 : Int) ≠ 0)) ∧
    rowGet (projectCookie sampleCookieRow) "expired" =
        Val.bool (decide ((2 : Int) ≠ 0)) ∧
    rowGet (projectCookie sampleCookieRow) "persistent" =
        Val.bool (decide ((0 : Int) ≠ 0)) ∧
    rowGet (projectCookie sampleCookieRow) "priority" =
        Val.bool (decide ((1 : Int) ≠ 0)) :=
  cookie_flags_coerced sampleCookieRow 1 0 2 0 1
    (by decide) (by decide) (by decide) (by decide) (by decide)

/-- C9: the projected cookie field `value` is drawn from the native
`encrypted_value` column, and the native plaintext `value` column plays
no part in the projection: overriding it with any value leaves the
projected record unchanged, while overriding `encrypted_value` changes
the projected `value` field accordingly. -/
theorem cookie_value_from_encrypted :
    (∀ row : Row, rowGet (projectCookie row) "value" = rowGet row "encrypted_value") ∧
    (∀ (row : Row) (v : Val),
       projectCookie (("value", v) :: row) = projectCookie row) ∧
    (∀ (row : Row) (v : Val),
       rowGet (projectCookie (("encrypted_value", v) :: row)) "value" = v) :=
  ⟨fun _ => rfl, fun _ _ => rfl, fun _ _ => rfl⟩

theorem collapseSep_cons_ne (c : Char) (l : List Char) (hc : c ≠ '\\') :
    collapseSep (c :: l) = c :: collapseSep l := by
  cases l with
  | nil => rfl
  | cons c2 rest => simp [collapseSep, hc]

theorem collapseSep_append_nosep (l r : List Char) (h : ∀ c ∈ l, c ≠ '\\') :
    collapseSep (l ++ r) = l ++ collapseSep r := by
  induction l with
  | nil => rfl
  | cons c rest ih =>
      rw [List.cons_append, collapseSep_cons_ne c _ (h c (by simp)),
        ih (fun c2 hc2 => h c2 (by simp [hc2]))]
      simp

theorem pathJoin_three (lapd mid f : String) (h0 : lapd ≠ "")
    (hsep : ∀ c ∈ lapd.data, c ≠ '\\') (hmid : mid ≠ "") (hf : f ≠ "") :
    pathJoin [lapd, mid, f] =
      lapd ++ String.mk (collapseSep ("\\" ++ mid ++ "\\" ++ f).data) := by
  simp [pathJoin, joinParts, List.filter, h0, hmid, hf]
  rw [collapseSep_append_nosep _ _ hsep]
  rfl

/-- C8: for every local application-data directory (non-empty, with the
directory-separator handling isolated in the hypotheses), the path
resolver maps each of the three known browser identifiers and each of the
three store file names to the vendor's documented path directly beneath
that directory, and maps every identifier outside {chrome, opera, yandex}
to an absent result instead of failing. -/
theorem getBrowserFilePath_vendor_paths (lapd : String) (h0 : lapd ≠ "")
    (hsep : ∀ c ∈ lapd.data, c ≠ '\\') :
    getBrowserFilePath lapd "chrome" "Login Data" =
        some (lapd ++ "\\Google\\Chrome\\User Data\\Default\\Login Data") ∧
    getBrowserFilePath lapd "chrome" "Cookies" =
        some (lapd ++ "\\Google\\Chrome\\User Data\\Default\\Cookies") ∧
    getBrowserFilePath lapd "chrome" "History" =
        some (lapd ++ "\\Google\\Chrome\\User Data\\Default\\History") ∧
    getBrowserFilePath lapd "opera" "Login Data" =
        some (lapd ++ "\\Opera Software\\Opera Stable\\Login Data") ∧
    getBrowserFilePath lapd "opera" "Cookies" =
        some (lapd ++ "\\Opera Software\\Opera Stable\\Cookies") ∧
    getBrowserFilePath lapd "opera" "History" =
        some (lapd ++ "\\Opera Software\\Opera Stable\\History") ∧
    getBrowserFilePath lapd "yandex" "Login Data" =
        some (lapd ++ "\\Yandex\\YandexBrowser\\User Data\\Default\\Login Data") ∧
    getBrowserFilePath lapd "yandex" "Cookies" =
        some (lapd ++ "\\Yandex\\YandexBrowser\\User Data\\Default\\Cookies") ∧
    getBrowserFilePath lapd "yandex" "History" =
        some (lapd ++ "\\Yandex\\YandexBrowser\\User Data\\Default\\History") ∧
    (∀ browser fileName : String, browser ≠ "chrome" → browser ≠ "opera" →
       browser ≠ "yandex" → getBrowserFilePath lapd browser fileName = none) := by
  have combo : ∀ mid f target : String, mid ≠ "" → f ≠ "" →
      String.mk (collapseSep ("\\" ++ mid ++ "\\" ++ f).data) = target →
      pathJoin [lapd, mid, f] = lapd ++ target := by
    intro mid f target hm hf hc
    rw [pathJoin_three lapd mid f h0 hsep hm hf, hc]
  refine ⟨?_, ?_, ?_, ?_, ?_, ?_, ?_, ?_, ?_, ?_⟩
  · simp [getBrowserFilePath,
      combo "\\Google\\Chrome\\User Data\\Default\\" "Login Data"
        "\\Google\\Chrome\\User Data\\Default\\Login Data"
        (by decide) (by decide) (by decide)]
  · simp [getBrowserFilePath,
      combo "\\Google\\Chrome\\User Data\\Default\\" "Cookies"
        "\\Google\\Chrome\\User Data\\Default\\Cookies"
        (by decide) (by decide) (by decide)]
  · simp [getBrowserFilePath,
      combo "\\Google\\Chrome\\User Data\\Default\\" "History"
        "\\Google\\Chrome\\User Data\\Default\\History"
        (by decide) (by decide) (by decide)]
  · simp [getBrowserFilePath,
      combo "\\Opera Software\\Opera Stable\\" "Login Data"
        "\\Opera Software\\Opera Stable\\Login Data"
        (by decide) (by decide) (by decide)]
  · simp [getBrowserFilePath,
      combo "\\Opera Software\\Opera Stable\\" "Cookies"
        "\\Opera Software\\Opera Stable\\Cookies"
        (by decide) (by decide) (by decide)]
  · simp [getBrowserFilePath,
      combo "\\Opera Software\\Opera Stable\\" "History"
        "\\Opera Software\\Opera Stable\\History"
        (by decide) (by decide) (by decide)]
  · simp [getBrowserFilePath,
      combo "\\Yandex\\YandexBrowser\\User Data\\Default\\" "Login Data"
        "\\Yandex\\YandexBrowser\\User Data\\Default\\Login Data"
        (by decide) (by decide) (by decide)]
  · simp [getBrowserFilePath,
      combo "\\Yandex\\YandexBrowser\\User Data\\Default\\" "Cookies"
        "\\Yandex\\YandexBrowser\\User Data\\Default\\Cookies"
        (by decide) (by decide) (by decide)]
  · simp [getBrowserFilePath,
      combo "\\Yandex\\YandexBrowser\\User Data\\Default\\" "History"
        "\\Yandex\\YandexBrowser\\User Data\\Default\\History"
        (by decide) (by decide) (by decide)]
  · intro browser fileName n1 n2 n3
    simp [getBrowserFilePath, n1, n2, n3]

/-- C8 witness: the resolver evaluated with the concrete directory
`"C:"`: chrome's Login Data path is the vendor path beneath it, and the
unknown identifier `"firefox"` resolves to an absent result. -/
theorem getBrowserFilePath_vendor_paths_witness :
    getBrowserFilePath "C:" "chrome" "Login Data" =
        some ("C:" ++ "\\Google\\Chrome\\User Data\\Default\\Login Data") ∧
    getBrowserFilePath "C:" "firefox" "Login Data" = none :=
  ⟨(getBrowserFilePath_vendor_paths "C:" (by decide) (by decide)).1,
   (getBrowserFilePath_vendor_paths "C:" (by decide)
       (by decide)).2.2.2.2.2.2.2.2.2 "firefox" "Login Data"
     (by decide) (by decide) (by decide)⟩
